import Mathlib

/-!
Verification of the job-orchestration and pipeline-execution core of the
audio speaker-separation service (`processor/services.py`, `processor/views.py`,
`processor/models.py`, `processor/forms.py`).

The Python module keeps three module-level dictionaries (`job_statuses`,
`job_cancellations`, `job_threads`) next to a Django-backed durable store of
`ProcessingJob` and `SpeakerTrack` rows.  We embed that state as association
lists inside a single `SysState` record, and each service operation as a pure
state-passing function translated line by line from the source.  Timestamps
are abstract seconds (`Nat`); audio is a list of samples, one per millisecond;
segment start and end times are rationals (the source uses Python floats, but
every comparison the properties rely on is exact at the inputs of interest).
-/

set_option autoImplicit false

namespace AudioSep

/-! ## Association-list maps

Python dictionaries preserve insertion order; updating an existing key keeps
its position and inserting a new key appends it.  `ainsert`, `alookup` and
`aerase` mirror `d[k] = v`, `d.get(k)` and `del d[k]`. -/

variable {κ : Type} {α : Type}

def alookup [DecidableEq κ] : List (κ × α) → κ → Option α
  | [], _ => none
  | (k, v) :: rest, k' => if k = k' then some v else alookup rest k'

def ainsert [DecidableEq κ] : List (κ × α) → κ → α → List (κ × α)
  | [], k, v => [(k, v)]
  | (k', v') :: rest, k, v =>
      if k' = k then (k, v) :: rest else (k', v') :: ainsert rest k v

def aerase [DecidableEq κ] (l : List (κ × α)) (k : κ) : List (κ × α) :=
  l.filter (fun p => ¬ p.1 = k)

/-! ## Data model

`Snapshot` is the cache entry (`job_statuses[job_id]`), `JobRecord` the durable
`ProcessingJob` row, `SpeakerTrackRec` the durable `SpeakerTrack` row (duration
is stored in milliseconds: the source stores `len(audio) / 1000.0` seconds).
`SysState` holds the module-level dictionaries, the durable store, the written
output files and the current wall-clock time in seconds. -/

structure Snapshot where
  status : String
  step : String
  progress : Int
  message : String
deriving DecidableEq, Repr

structure JobRecord where
  status : String
  current_step : String
  progress_percentage : Int
  error_message : Option String
  started_at : Option Nat
  completed_at : Option Nat
  speaker_count : Option Nat
  output_directory : Option String
deriving DecidableEq, Repr

structure SpeakerTrackRec where
  speaker_label : String
  audio_file_path : String
  duration_ms : Nat
  word_count : Nat
deriving DecidableEq, Repr

structure SysState where
  job_statuses : List (String × Snapshot)
  job_cancellations : List (String × Bool)
  job_threads : List String
  db : List (String × JobRecord)
  tracks : List ((String × String) × SpeakerTrackRec)
  output_files : List (String × String × List Int)
  now : Nat
deriving DecidableEq, Repr

/-! ## Status writes and cancellation

`update_job_status` is translated from `AudioProcessingService.update_job_status`:
it first drops the write when the cancellation flag is set and the status is not
`failed`/`cancelled`; otherwise it writes the in-memory snapshot, then attempts
the durable write.  The whole body runs inside `try/except Exception`, so a
durable-write failure (modelled by `db_write_fails`, and likewise a missing row)
is logged and swallowed: the function still returns normally and the cache keeps
the new snapshot.  The returned `Bool` records whether the snapshot was
published (i.e. the write was not dropped by the cancellation filter). -/

def check_job_cancelled (s : SysState) (job_id : String) : Bool :=
  (alookup s.job_cancellations job_id).getD false

/-- The mutation `update_job_status` performs on the `ProcessingJob` row before
`job.save()`: status, step and progress are overwritten; the cancellation error
message is set for a `failed`/`cancelled` write; `started_at` is set on the
first transition into `processing`, otherwise `completed_at` is set on entering
a terminal status. -/
def apply_status (job : JobRecord) (status step : String) (progress : Int)
    (now : Nat) : JobRecord :=
  { job with
    status := status
    current_step := step
    progress_percentage := progress
    error_message :=
      if status = "failed" ∧ step = "cancelled" then some "Job cancelled by user"
      else job.error_message
    started_at :=
      if status = "processing" ∧ job.started_at = none then some now
      else job.started_at
    completed_at :=
      if ¬ (status = "processing" ∧ job.started_at = none) ∧
          (status = "completed" ∨ status = "failed") then some now
      else job.completed_at }

def update_job_status (s : SysState) (job_id status step : String) (progress : Int)
    (message : String) (db_write_fails : Bool) : SysState × Bool :=
  if check_job_cancelled s job_id = true ∧ status ≠ "failed" ∧ status ≠ "cancelled" then
    (s, false)
  else
    let snap : Snapshot := ⟨status, step, progress, message⟩
    let s₁ : SysState := { s with job_statuses := ainsert s.job_statuses job_id snap }
    if db_write_fails then (s₁, true)
    else
      match alookup s₁.db job_id with
      | none => (s₁, true)
      | some job =>
          ({ s₁ with db := ainsert s₁.db job_id (apply_status job status step progress s₁.now) },
            true)

/-- Translated from `AudioProcessingService.cancel_job`: set the cancellation
flag, write the `failed`/`cancelled` status, then drop the job from the status
cache and the thread registry. -/
def cancel_job (s : SysState) (job_id : String) : Bool × SysState :=
  let s₁ : SysState := { s with job_cancellations := ainsert s.job_cancellations job_id true }
  let s₂ : SysState := (update_job_status s₁ job_id "failed" "cancelled" 0 "Job cancelled by user" false).1
  let s₃ : SysState := { s₂ with job_statuses := aerase s₂.job_statuses job_id }
  (true, { s₃ with job_threads := s₃.job_threads.filter (fun t => t ≠ job_id) })

/-! ## Status reads and the stale-job reaper

`display_step` is `ProcessingJob.get_current_step_display`: the human-readable
text of `STEP_CHOICES`, falling back to the raw value for a step outside the
table (Django behaves the same way).  `db_snapshot` is the dictionary
`get_job_status` builds from a database row. -/

def display_step (step : String) : String :=
  if step = "uploaded" then "File Uploaded"
  else if step = "converting" then "Converting Audio Format"
  else if step = "transcribing" then "Transcribing with WhisperX"
  else if step = "separating" then "Separating Speakers"
  else if step = "finalizing" then "Finalizing Output"
  else if step = "completed" then "Processing Complete"
  else step

def db_snapshot (job : JobRecord) : Snapshot :=
  ⟨job.status, job.current_step, job.progress_percentage,
    "Current step: " ++ display_step job.current_step⟩

/-- The staleness test of `clean_stale_cache_entries`: status `processing`,
`started_at` set, and more than 30 minutes (1800 s) in the past. -/
def is_stale (job : JobRecord) (now : Nat) : Bool :=
  if job.status = "processing" then
    match job.started_at with
    | some t => decide (t + 1800 < now)
    | none => false
  else false

/-- The forced-failure row the reaper writes for a stuck job. -/
def stale_failed (job : JobRecord) (now : Nat) : JobRecord :=
  { job with
    status := "failed"
    current_step := "failed"
    progress_percentage := 0
    error_message := some "Processing timed out after 30 minutes"
    completed_at := some now }

/-- First pass of `clean_stale_cache_entries`: walk the cache entries, force-fail
every stuck job in the durable store, and collect the ids to evict (stuck jobs
and cache entries whose job no longer exists in the database). -/
def stale_scan (now : Nat) : List (String × JobRecord) → List (String × Snapshot) →
    List (String × JobRecord) × List String
  | db, [] => (db, [])
  | db, (job_id, _) :: rest =>
      match alookup db job_id with
      | none =>
          let r := stale_scan now db rest
          (r.1, job_id :: r.2)
      | some job =>
          if is_stale job now then
            let r := stale_scan now (ainsert db job_id (stale_failed job now)) rest
            (r.1, job_id :: r.2)
          else stale_scan now db rest

/-- Translated from `AudioProcessingService.clean_stale_cache_entries`. -/
def clean_stale_cache_entries (s : SysState) : SysState :=
  let r := stale_scan s.now s.db s.job_statuses
  { s with
    db := r.1
    job_statuses := s.job_statuses.filter (fun p => decide (p.1 ∉ r.2)) }

/-- Translated from `AudioProcessingService.get_job_status`.  The source runs the
reaper on a 10 % random sample of reads; the coin flip is the `run_cleaner`
argument.  Terminal jobs are always answered from the durable row; in-flight
jobs prefer the cache and fall back to (and repopulate from) the durable row. -/
def get_job_status (s : SysState) (job_id : String) (run_cleaner : Bool) :
    Snapshot × SysState :=
  let s₁ := if run_cleaner then clean_stale_cache_entries s else s
  match alookup s₁.db job_id with
  | none => (⟨"not_found", "error", 0, "Job not found"⟩, s₁)
  | some job =>
      if job.status = "completed" ∨ job.status = "failed" then
        let st := db_snapshot job
        (st, { s₁ with job_statuses := ainsert s₁.job_statuses job_id st })
      else
        match alookup s₁.job_statuses job_id with
        | some m => (m, s₁)
        | none =>
            let st := db_snapshot job
            (st, { s₁ with job_statuses := ainsert s₁.job_statuses job_id st })

/-! ## Transcript segments and the diarization-failure fallback

A transcript segment carries start/end times in seconds, its text and an
optional speaker identity.  `fallback_assign_speakers` is the heuristic of
`run_whisperx_transcription` used when diarization raises or times out but the
transcript segments exist: walk the segments keeping a current speaker (0/1)
and the previous end time, toggling the speaker when the silence gap exceeds
2 seconds; a transcript with at most one segment is assigned `SPEAKER_00`. -/

structure Segment where
  start : Rat
  endTime : Rat
  text : String
  speaker : Option String
deriving DecidableEq, Repr

/-- Python `f"SPEAKER_{n:02d}"`. -/
def speaker_name (n : Nat) : String :=
  "SPEAKER_" ++ (if n < 10 then "0" else "") ++ toString n

def assign_speakers_loop (current_speaker : Nat) (last_end_time : Rat) :
    List Segment → List Segment
  | [] => []
  | seg :: rest =>
      let cur := if 2 < seg.start - last_end_time then 1 - current_speaker else current_speaker
      { seg with speaker := some (speaker_name cur) } ::
        assign_speakers_loop cur seg.endTime rest

def fallback_assign_speakers (segments : List Segment) : List Segment :=
  if 1 < segments.length then assign_speakers_loop 0 0 segments
  else segments.map (fun seg => { seg with speaker := some "SPEAKER_00" })

/-! ## Speaker separation

`group_by_speaker` mirrors the grouping loop of `separate_speakers` (and of
`finalize_processing`): a Python dict from speaker key to the list of that
speaker's segments, in first-appearance order of the keys, each list in segment
order.  `slice_audio` is `audio[start_ms:end_ms]` with the millisecond offsets
`int(segment["start"] * 1000)` (segment times are non-negative, where `int`
truncation and `floor` agree); `build_speaker_audio` is the concatenation loop,
which appends 500 ms of silence after every span. -/

def seg_key (seg : Segment) : String := seg.speaker.getD "UNKNOWN"

def insert_seg (acc : List (String × List Segment)) (k : String) (seg : Segment) :
    List (String × List Segment) :=
  match acc with
  | [] => [(k, [seg])]
  | (k', l) :: rest =>
      if k' = k then (k', l ++ [seg]) :: rest else (k', l) :: insert_seg rest k seg

def group_by_speaker (segs : List Segment) : List (String × List Segment) :=
  segs.foldl (fun acc seg => insert_seg acc (seg_key seg) seg) []

def start_ms (seg : Segment) : Int := ⌊seg.start * 1000⌋

def end_ms (seg : Segment) : Int := ⌊seg.endTime * 1000⌋

def slice_audio (audio : List Int) (seg : Segment) : List Int :=
  (audio.drop (start_ms seg).toNat).take ((end_ms seg).toNat - (start_ms seg).toNat)

def build_speaker_audio (audio : List Int) (segs : List Segment) : List Int :=
  segs.foldl (fun acc seg => acc ++ slice_audio audio seg ++ List.replicate 500 0) []

/-- First-appearance order of a list of keys: the key order of a Python dict
built by appending. -/
def first_keys (ks : List String) : List String :=
  ks.foldl (fun acc k => if k ∈ acc then acc else acc ++ [k]) []

/-! ## The pipeline executor

`PState` couples the system state with the trace of published snapshots (the
cache writes that were not dropped by the cancellation filter), in order.
`PipeEnv` fixes the behaviour of the external collaborators for one run: the
codec (input present, decode and export success, the decoded samples), the
transcription engine (importable, model load and transcribe success, the raw
transcript) and the diarization sub-phase outcome.  Stage failures are
`Except.error` values carrying the exception message; the executor catches
them all. -/

structure PState where
  sys : SysState
  trace : List Snapshot
deriving DecidableEq, Repr

def push_status (p : PState) (job_id status step : String) (progress : Int)
    (message : String) : PState :=
  let r := update_job_status p.sys job_id status step progress message false
  { sys := r.1
    trace := if r.2 then p.trace ++ [⟨status, step, progress, message⟩] else p.trace }

inductive DiarOutcome
  | success (segs : List Segment)
  | timeout
  | failure
deriving DecidableEq, Repr

structure PipeEnv where
  input_missing : Bool
  load_fails : Bool
  ext_hint_works : Bool
  export_fails : Bool
  audio : List Int
  whisperx_available : Bool
  load_model_fails : Bool
  transcribe_fails : Bool
  real_segments : List Segment
  diar : DiarOutcome
deriving DecidableEq, Repr

/-- Translated from `AudioProcessingService.convert_to_wav`: cancellation checks
before the first write, before loading and before exporting; a failed load is
retried once with an explicit format hint from the file extension. -/
def convert_to_wav (env : PipeEnv) (job_id : String) (p : PState) :
    PState × Except String (List Int) :=
  if check_job_cancelled p.sys job_id then (p, .error "Job cancelled by user")
  else
    let p := push_status p job_id "processing" "converting" 10
      "Starting audio conversion to WAV format..."
    if env.input_missing then (p, .error "Input file not found")
    else
      let p := push_status p job_id "processing" "converting" 15 "Loading audio file..."
      if check_job_cancelled p.sys job_id then (p, .error "Job cancelled by user")
      else if env.load_fails ∧ ¬ env.ext_hint_works then (p, .error "Failed to load audio file")
      else
        let p := push_status p job_id "processing" "converting" 20
          "Audio loaded. Exporting to WAV..."
        if check_job_cancelled p.sys job_id then (p, .error "Job cancelled by user")
        else if env.export_fails then (p, .error "WAV export failed")
        else
          let p := push_status p job_id "processing" "converting" 25
            "Audio converted to WAV format successfully"
          (p, .ok env.audio)

/-- The fixed fallback transcript of `_run_mock_whisperx`: six segments
alternating between two speaker identities.  (Punctuation of the texts is
simplified; the whitespace word counts are unchanged.) -/
def mock_seg0 : Segment := ⟨0, 3, "Hello, welcome to our podcast.", some "SPEAKER_00"⟩

def mock_seg1 : Segment := ⟨3.5, 7, "Thank you for having me.", some "SPEAKER_01"⟩

def mock_seg2 : Segment := ⟨7.5, 11, "Lets talk about the topic.", some "SPEAKER_00"⟩

def mock_seg3 : Segment := ⟨11.5, 15, "That sounds interesting.", some "SPEAKER_01"⟩

def mock_seg4 : Segment := ⟨15.5, 19, "I think we should discuss this further.", some "SPEAKER_00"⟩

def mock_seg5 : Segment := ⟨19.5, 23, "Absolutely, I agree with that point.", some "SPEAKER_01"⟩

def mock_segments : List Segment :=
  [mock_seg0, mock_seg1, mock_seg2, mock_seg3, mock_seg4, mock_seg5]

/-- Translated from `AudioProcessingService._run_mock_whisperx`: five sleep
steps, each publishing an ascending checkpoint starting again from 35. -/
def run_mock_whisperx (job_id : String) (p : PState) : PState × List Segment :=
  let p := push_status p job_id "processing" "transcribing" 35
    "Processing audio with mock WhisperX..."
  let p := push_status p job_id "processing" "transcribing" 40 "Mock WhisperX processing... 1/5"
  let p := push_status p job_id "processing" "transcribing" 45 "Mock WhisperX processing... 2/5"
  let p := push_status p job_id "processing" "transcribing" 50 "Mock WhisperX processing... 3/5"
  let p := push_status p job_id "processing" "transcribing" 55 "Mock WhisperX processing... 4/5"
  let p := push_status p job_id "processing" "transcribing" 60 "Mock WhisperX processing... 5/5"
  (p, mock_segments)

/-- Body of the big `try` of `run_whisperx_transcription`.  Every raised
exception — including an observed cancellation — escapes to the outer handler,
which substitutes the mock result.  Alignment failures are caught inside and
publish nothing; the diarization sub-phase either succeeds (publishing the 58 %
checkpoint), or times out / fails and falls back to the gap heuristic over the
transcript segments. -/
def run_whisperx_real (env : PipeEnv) (job_id : String) (p : PState) :
    PState × Except String (List Segment) :=
  if check_job_cancelled p.sys job_id then (p, .error "Job cancelled by user")
  else
    let p := push_status p job_id "processing" "transcribing" 30
      "Transcribing audio and identifying speakers..."
    if ¬ env.whisperx_available then (p, .error "WhisperX not available")
    else
      let p := push_status p job_id "processing" "transcribing" 35 "Loading WhisperX model..."
      if env.load_model_fails then (p, .error "Failed to load WhisperX model")
      else if check_job_cancelled p.sys job_id then (p, .error "Job cancelled by user")
      else
        let p := push_status p job_id "processing" "transcribing" 40 "Transcribing audio..."
        if env.transcribe_fails then (p, .error "Transcription failed")
        else if check_job_cancelled p.sys job_id then (p, .error "Job cancelled by user")
        else
          let p := push_status p job_id "processing" "transcribing" 50
            "Aligning transcription..."
          if check_job_cancelled p.sys job_id then (p, .error "Job cancelled by user")
          else
            let p := push_status p job_id "processing" "transcribing" 55
              "Performing speaker diarization..."
            match env.diar with
            | .success diarized =>
                let p := push_status p job_id "processing" "transcribing" 58
                  "Assigning speakers to segments..."
                (p, .ok diarized)
            | .timeout => (p, .ok (fallback_assign_speakers env.real_segments))
            | .failure => (p, .ok (fallback_assign_speakers env.real_segments))

/-- Translated from `AudioProcessingService.run_whisperx_transcription`: the
whole body runs in a `try` whose handler falls back to the mock implementation,
so the function always returns a transcript. -/
def run_whisperx_transcription (env : PipeEnv) (job_id : String) (p : PState) :
    PState × List Segment :=
  match run_whisperx_real env job_id p with
  | (p, .ok result) => (p, result)
  | (p, .error _) => run_mock_whisperx job_id p

/-- Per-speaker loop of `separate_speakers`: cancellation check, progress
checkpoint `65 + idx * 20 // total`, build the speaker audio, export the file. -/
def separate_loop (audio : List Int) (job_id : String) :
    List (String × List Segment) → Nat → Nat → PState → List (String × List Int) →
    PState × Except String (List (String × List Int))
  | [], _, _, p, files => (p, .ok files)
  | (spk, segs) :: rest, total, idx, p, files =>
      if check_job_cancelled p.sys job_id then (p, .error "Job cancelled by user")
      else
        let p := push_status p job_id "processing" "separating"
          (65 + (Int.ofNat (idx * 20 / total)))
          ("Processing speaker " ++ toString (idx + 1) ++ "/" ++ toString total ++ ": " ++ spk)
        let speaker_audio := build_speaker_audio audio segs
        let p : PState :=
          { p with sys :=
            { p.sys with output_files := p.sys.output_files ++ [(job_id, spk, speaker_audio)] } }
        separate_loop audio job_id rest total (idx + 1) p (files ++ [(spk, speaker_audio)])

/-- Translated from `AudioProcessingService.separate_speakers`. -/
def separate_speakers (audio : List Int) (segs : List Segment) (job_id : String)
    (p : PState) : PState × Except String (List (String × List Int)) :=
  if check_job_cancelled p.sys job_id then (p, .error "Job cancelled by user")
  else
    let p := push_status p job_id "processing" "separating" 60
      "Separating speakers into individual tracks..."
    let groups := group_by_speaker segs
    separate_loop audio job_id groups groups.length 0 p []

/-- Python `len(text.split())`: the number of whitespace-separated words. -/
def count_words (t : String) : Nat :=
  ((t.splitOn " ").filter (fun w => ¬ w = "")).length

/-- Per-file loop of `finalize_processing`: create one `SpeakerTrack` row per
speaker file (duration in milliseconds, whitespace word count of that
speaker's transcript) and publish the `92 + i * 6 // n` checkpoint. -/
def finalize_loop (job_id : String) (segs_by_speaker : List (String × List Segment)) :
    List (String × List Int) → Nat → Nat → PState → PState
  | [], _, _, p => p
  | (spk, samples) :: rest, n, i, p =>
      let word_count :=
        ((alookup segs_by_speaker spk).getD []).foldl (fun a seg => a + count_words seg.text) 0
      let tr : SpeakerTrackRec :=
        ⟨"", "output/" ++ job_id ++ "/" ++ spk ++ ".wav", samples.length, word_count⟩
      let p : PState := { p with sys := { p.sys with tracks := ainsert p.sys.tracks (job_id, spk) tr } }
      let p := push_status p job_id "processing" "finalizing" (92 + (Int.ofNat (i * 6 / n)))
        ("Created track record for " ++ spk)
      finalize_loop job_id segs_by_speaker rest n (i + 1) p

/-- Translated from `AudioProcessingService.finalize_processing`: store speaker
count and output directory on the job row (an empty speaker list raises an
index error before the row is saved), create the track rows, then publish the
terminal `completed` status with progress 100. -/
def finalize_processing (job_id : String) (files : List (String × List Int))
    (segs : List Segment) (p : PState) : PState × Except String Unit :=
  let p := push_status p job_id "processing" "finalizing" 90 "Finalizing results..."
  match alookup p.sys.db job_id with
  | none => (p, .error "ProcessingJob matching query does not exist.")
  | some job =>
      match files with
      | [] => (p, .error "list index out of range")
      | _ :: _ =>
          let job' : JobRecord :=
            { job with
              speaker_count := some files.length
              output_directory := some ("output/" ++ job_id) }
          let p : PState := { p with sys := { p.sys with db := ainsert p.sys.db job_id job' } }
          let segs_by_speaker := group_by_speaker segs
          let p := finalize_loop job_id segs_by_speaker files files.length 0 p
          let p := push_status p job_id "completed" "completed" 100
            ("Processing complete! Identified " ++ toString files.length ++ " speakers.")
          (p, .ok ())

/-- The `except` handler of `run_separation_pipeline`: publish the terminal
`failed`/`error` status with progress 0 and a prefixed message, then store the
raw message on the job row. -/
def pipeline_fail (job_id : String) (msg : String) (p : PState) : PState :=
  let p := push_status p job_id "failed" "error" 0 ("Processing failed: " ++ msg)
  match alookup p.sys.db job_id with
  | none => p
  | some job =>
      { p with sys :=
        { p.sys with db := ainsert p.sys.db job_id { job with error_message := some msg } } }

/-- Translated from `AudioProcessingService.run_separation_pipeline`: the four
stages in order, with every stage failure caught at the pipeline boundary and
converted into the terminal failed status — nothing is re-raised to the
caller. -/
def run_separation_pipeline (env : PipeEnv) (job_id : String) (p : PState) : PState :=
  match alookup p.sys.db job_id with
  | none => pipeline_fail job_id "ProcessingJob matching query does not exist." p
  | some _ =>
      let p := push_status p job_id "processing" "initializing" 5
        "Starting audio processing pipeline..."
      match convert_to_wav env job_id p with
      | (p, .error e) => pipeline_fail job_id e p
      | (p, .ok audio) =>
          let r := run_whisperx_transcription env job_id p
          match separate_speakers audio r.2 job_id r.1 with
          | (p, .error e) => pipeline_fail job_id e p
          | (p, .ok files) =>
              match finalize_processing job_id files r.2 p with
              | (p, .error e) => pipeline_fail job_id e p
              | (p, .ok _) => p

/-- Environment of Scenario A: the transcription engine cannot even be
imported; every other collaborator behaves. -/
def env_unavailable (audio : List Int) : PipeEnv :=
  ⟨false, false, false, false, audio, false, false, false, [], DiarOutcome.timeout⟩

/-- Environment where the engine imports and loads but `model.transcribe`
raises: an unrecoverable engine failure after the 40 % checkpoint. -/
def env_engine_crash (audio : List Int) : PipeEnv :=
  ⟨false, false, false, false, audio, true, false, true, [], DiarOutcome.timeout⟩

/-- Modelled from the specification wording of the Separating stage (for the
refutation of C7 as stated): the speaker audio with the 500 ms silence gap
inserted only BETWEEN consecutive spans. -/
def spec_speaker_audio (audio : List Int) (segs : List Segment) : List Int :=
  ((segs.map (slice_audio audio)).intersperse (List.replicate 500 0)).flatten

/-! ## Example states and environments used by the claim theorems below -/

/-- Example state for exercising the status write: one job, cached and stored,
no cancellation flag. -/
def c1_state : SysState :=
  { job_statuses := [("j1", ⟨"processing", "converting", 20, "old message"⟩)]
    job_cancellations := []
    job_threads := ["j1"]
    db := [("j1", ⟨"processing", "converting", 20, none, some 100, none, none, none⟩)]
    tracks := []
    output_files := []
    now := 200 }

/-- Example state with the cancellation flag of job `j1` set. -/
def c10_state : SysState :=
  { c1_state with job_cancellations := [("j1", true)] }

/-- Example state for C3: job `done` is completed in the durable store but has
a different, stale cache entry; job `live` is in flight with a cache entry. -/
def c3_state : SysState :=
  { job_statuses := [("done", ⟨"processing", "separating", 70, "stale cache entry"⟩),
                     ("live", ⟨"processing", "transcribing", 45, "fresh cache entry"⟩)]
    job_cancellations := []
    job_threads := []
    db := [("done", ⟨"completed", "completed", 100, none, some 0, some 50, some 2, some "out"⟩),
           ("live", ⟨"processing", "converting", 20, none, some 10, none, none, none⟩)]
    tracks := []
    output_files := []
    now := 60 }

def c3_done_rec : JobRecord :=
  ⟨"completed", "completed", 100, none, some 0, some 50, some 2, some "out"⟩

def c8_stuck_rec : JobRecord :=
  ⟨"processing", "transcribing", 40, none, some 0, none, none, none⟩

/-- Example state for the C8 counterexample: job `stuck` is `processing`,
started at time 0, now is 100000 s later (well past the 30-minute timeout) —
but it has no cache entry. -/
def c8_state : SysState :=
  { job_statuses := []
    job_cancellations := []
    job_threads := []
    db := [("stuck", c8_stuck_rec)]
    tracks := []
    output_files := []
    now := 100000 }

/-- Example state for the C8 witness: the same stuck job, this time with a
cache entry, plus a live thread-registry entry. -/
def c8_witness_state : SysState :=
  { job_statuses := [("stuck", ⟨"processing", "transcribing", 40, "working..."⟩)]
    job_cancellations := []
    job_threads := ["stuck"]
    db := [("stuck", c8_stuck_rec)]
    tracks := []
    output_files := []
    now := 100000 }

/-! ## Speaker-label updates

Model of `views.update_speaker_name`, `forms.SpeakerLabelForm` and
`services.update_speaker_label`. -/

/-- Python `str.strip()`: drop leading and trailing whitespace. -/
def strip (s : String) : String :=
  String.mk (((s.toList.dropWhile Char.isWhitespace).reverse.dropWhile
    Char.isWhitespace).reverse)

/-- The character class of `clean_speaker_label`: letters, digits, whitespace,
hyphen and underscore. -/
def allowed_label_char (c : Char) : Bool :=
  c.isAlpha || c.isDigit || c.isWhitespace || c = '-' || c = '_'

/-- Validation of `SpeakerLabelForm` applied to the view-stripped label (the
form field re-strips, a no-op on an already stripped value): `speaker_id` is a
required CharField of max length 50; `speaker_label` is optional, at most 100
characters, and when non-empty restricted to `allowed_label_char` by
`clean_speaker_label`. -/
def speaker_label_form_valid (speaker_id label : String) : Bool :=
  decide (strip speaker_id ≠ "") && decide ((strip speaker_id).length ≤ 50) &&
    decide (label.length ≤ 100) &&
    (decide (label = "") || label.toList.all allowed_label_char)

/-- Translated from `update_speaker_label` in `services.py`: look up the job,
then the track; any failure (including a missing row) is caught and reported
as `False`.  No job-status check is performed anywhere on this path. -/
def update_speaker_label (s : SysState) (job_id speaker_id new_label : String) :
    Bool × SysState :=
  match alookup s.db job_id with
  | none => (false, s)
  | some _ =>
      match alookup s.tracks (job_id, speaker_id) with
      | none => (false, s)
      | some tr =>
          let tr2 : SpeakerTrackRec := { tr with speaker_label := new_label }
          (true, { s with tracks := ainsert s.tracks (job_id, speaker_id) tr2 })

inductive UpdateResponse
  | ok
  | validationError
  | serverError
  | notFound
deriving DecidableEq, Repr

/-- Translated from `views.update_speaker_name`: strip the label, validate the
form (a 400 validation error on failure), call the service, and map `False` to
a generic 500 server error — never to a 404 NotFound. -/
def update_speaker_name (s : SysState) (job_id speaker_id label_raw : String) :
    UpdateResponse × SysState :=
  let new_label := strip label_raw
  if speaker_label_form_valid speaker_id new_label then
    let r := update_speaker_label s job_id speaker_id new_label
    (if r.1 then UpdateResponse.ok else UpdateResponse.serverError, r.2)
  else (UpdateResponse.validationError, s)

def c9_track : SpeakerTrackRec := ⟨"", "output/j9/SPEAKER_00.wav", 1000, 5⟩

/-- A job whose status is still `processing` (not Completed), with one track. -/
def c9_processing_state : SysState :=
  ⟨[], [], [], [("j9", ⟨"processing", "separating", 70, none, some 0, none, none, none⟩)],
    [(("j9", "SPEAKER_00"), c9_track)], [], 0⟩

def c9_long_label : String := String.mk (List.replicate 101 'a')

/-- A Completed job with one track, as in Scenario D. -/
def c9_completed_state : SysState :=
  ⟨[], [], [], [("j9", ⟨"completed", "completed", 100, none, some 0, some 9, some 2,
      some "output/j9"⟩)],
    [(("j9", "SPEAKER_00"), c9_track)], [], 0⟩

def c7w_audio : List Int := [1, 2, 3, 4, 5]

def c7w_segs : List Segment :=
  [⟨0, 0.002, "a b", some "S1"⟩, ⟨0.002, 0.004, "c", some "S2"⟩,
   ⟨0.004, 0.005, "d", some "S1"⟩]

def c7w_state : PState :=
  ⟨⟨[], [], [], [("jw", ⟨"processing", "transcribing", 58, none, some 0, none, none, none⟩)],
    [], [], 7⟩, []⟩

def c7_audio : List Int := [5, 6, 7]

def c7_seg : Segment := ⟨0, 0.003, "hi", some "SPEAKER_00"⟩

def c2_rec : JobRecord := ⟨"pending", "uploaded", 0, none, none, none, none, none⟩

/-- Scenario B state: a freshly created pending job. -/
def c2_state : SysState :=
  ⟨[("j2", ⟨"pending", "uploaded", 0, "File uploaded successfully"⟩)], [], ["j2"],
    [("j2", c2_rec)], [], [], 1000⟩

/-- A fully healthy environment (the engine import fails, which never aborts a
run): cancellation is the only disturbance in Scenario B. -/
def c2_env : PipeEnv :=
  ⟨false, false, false, false, [1, 2, 3], false, false, false, [], DiarOutcome.timeout⟩

def c4_rec : JobRecord := ⟨"pending", "uploaded", 0, none, none, none, none, none⟩

def c4_state : SysState :=
  ⟨[("j4", ⟨"pending", "uploaded", 0, "File uploaded successfully"⟩)], [], ["j4"],
    [("j4", c4_rec)], [], [], 1000⟩

/-- Environment of the C4 failing input: WhisperX imports and loads, but
`model.transcribe` raises after the 40 % checkpoint was published; the run then
falls back to the mock implementation, which restarts its checkpoints at 35. -/
def c4_env : PipeEnv :=
  ⟨false, false, false, false, [1, 2, 3], true, false, true, [], DiarOutcome.timeout⟩

/-- Scenario C inputs: two segments with a 3-second gap, and with a 1-second gap. -/
def c5_far : List Segment := [⟨0, 1, "hello", none⟩, ⟨4, 5, "there", none⟩]

def c5_near : List Segment := [⟨0, 1, "hello", none⟩, ⟨2, 3, "there", none⟩]


@[simp] theorem alookup_nil [DecidableEq κ] (k : κ) :
    alookup ([] : List (κ × α)) k = none := rfl

@[simp] theorem alookup_cons [DecidableEq κ] (k k' : κ) (v : α) (l : List (κ × α)) :
    alookup ((k, v) :: l) k' = if k = k' then some v else alookup l k' := rfl

@[simp] theorem ainsert_nil [DecidableEq κ] (k : κ) (v : α) :
    ainsert ([] : List (κ × α)) k v = [(k, v)] := rfl

theorem alookup_ainsert [DecidableEq κ] (l : List (κ × α)) (k : κ) (v : α) :
    alookup (ainsert l k v) k = some v := by
  induction l with
  | nil => simp [ainsert, alookup]
  | cons p rest ih =>
      obtain ⟨k', v'⟩ := p
      by_cases hk : k' = k
      · simp [ainsert, hk, alookup]
      · simp [ainsert, hk, alookup, ih]

theorem alookup_ainsert_ne [DecidableEq κ] (l : List (κ × α)) (k k' : κ) (v : α)
    (h : k ≠ k') : alookup (ainsert l k v) k' = alookup l k' := by
  induction l with
  | nil => simp [ainsert, alookup, h]
  | cons p rest ih =>
      obtain ⟨k₀, v₀⟩ := p
      by_cases hk : k₀ = k
      · subst hk
        simp [ainsert, alookup, h]
      · simp [ainsert, hk, alookup, ih]

theorem is_stale_status {job : JobRecord} {now : Nat} (h : is_stale job now = true) :
    job.status = "processing" := by
  unfold is_stale at h
  by_cases hs : job.status = "processing"
  · exact hs
  · simp [hs] at h

/-- The scan never touches the durable row of a job that is not `processing`. -/
theorem stale_scan_db_preserves_nonprocessing (now : Nat) (cache : List (String × Snapshot)) :
    ∀ db : List (String × JobRecord), ∀ j rec, alookup db j = some rec →
      rec.status ≠ "processing" →
      alookup (stale_scan now db cache).1 j = some rec := by
  induction cache with
  | nil => intro db j rec h _; simpa [stale_scan] using h
  | cons p rest ih =>
      intro db j rec h hnp
      obtain ⟨k, sn⟩ := p
      unfold stale_scan
      cases hk : alookup db k with
      | none => simpa using ih db j rec h hnp
      | some job =>
          by_cases hst : is_stale job now = true
          · have hkj : k ≠ j := by
              intro he
              subst he
              rw [hk] at h
              cases h
              exact hnp (is_stale_status hst)
            have h' : alookup (ainsert db k (stale_failed job now)) j = some rec := by
              rw [alookup_ainsert_ne db k j (stale_failed job now) hkj]
              exact h
            simpa [hst] using ih _ j rec h' hnp
          · simp only [Bool.not_eq_true] at hst
            simpa [hst] using ih db j rec h hnp

/-- The scan leaves the durable store untouched at every id with no cache entry. -/
theorem stale_scan_db_not_mem (now : Nat) (cache : List (String × Snapshot)) :
    ∀ db : List (String × JobRecord), ∀ j, j ∉ cache.map Prod.fst →
      alookup (stale_scan now db cache).1 j = alookup db j := by
  induction cache with
  | nil => intro db j _; simp [stale_scan]
  | cons p rest ih =>
      intro db j hj
      obtain ⟨k, sn⟩ := p
      simp only [List.map_cons, List.mem_cons, not_or] at hj
      obtain ⟨hkj, hrest⟩ := hj
      unfold stale_scan
      cases hk : alookup db k with
      | none => simpa using ih db j hrest
      | some job =>
          by_cases hst : is_stale job now = true
          · have := ih (ainsert db k (stale_failed job now)) j hrest
            simpa [hst, alookup_ainsert_ne db k j _ (fun he => hkj he.symm)] using this
          · simp only [Bool.not_eq_true] at hst
            simpa [hst] using ih db j hrest

/-- A cached stuck job is force-failed in the durable store and marked stale. -/
theorem stale_scan_hits (now : Nat) (cache : List (String × Snapshot)) :
    ∀ db : List (String × JobRecord), ∀ j rec,
      (cache.map Prod.fst).Nodup → j ∈ cache.map Prod.fst →
      alookup db j = some rec → is_stale rec now = true →
      alookup (stale_scan now db cache).1 j = some (stale_failed rec now) ∧
        j ∈ (stale_scan now db cache).2 := by
  induction cache with
  | nil => intro db j rec _ hmem; cases hmem
  | cons p rest ih =>
      intro db j rec hnd hmem hdb hst
      obtain ⟨k, sn⟩ := p
      simp only [List.map_cons, List.nodup_cons] at hnd
      obtain ⟨hknotin, hndrest⟩ := hnd
      by_cases hkj : k = j
      · subst hkj
        unfold stale_scan
        rw [hdb]
        simp only [hst, if_true]
        constructor
        · rw [stale_scan_db_not_mem now rest _ k hknotin]
          exact alookup_ainsert db k (stale_failed rec now)
        · exact List.mem_cons_self _ _
      · have hmem' : j ∈ rest.map Prod.fst := by
          rcases List.mem_cons.mp hmem with h | h
          · exact absurd h.symm hkj
          · exact h
        unfold stale_scan
        cases hk : alookup db k with
        | none =>
            have := ih db j rec hndrest hmem' hdb hst
            exact ⟨this.1, List.mem_cons_of_mem _ this.2⟩
        | some job =>
            by_cases hstk : is_stale job now = true
            · have hdb' : alookup (ainsert db k (stale_failed job now)) j = some rec := by
                rw [alookup_ainsert_ne db k j _ hkj]; exact hdb
              have := ih _ j rec hndrest hmem' hdb' hst
              simp only [hstk, if_true]
              exact ⟨this.1, List.mem_cons_of_mem _ this.2⟩
            · simp only [Bool.not_eq_true] at hstk
              simp only [hstk, Bool.false_eq_true, if_false]
              exact ih db j rec hndrest hmem' hdb hst

theorem alookup_filter_not_mem (l : List (String × Snapshot)) (bad : List String)
    (j : String) (hj : j ∈ bad) :
    alookup (l.filter (fun p => decide (p.1 ∉ bad))) j = none := by
  induction l with
  | nil => rfl
  | cons p rest ih =>
      obtain ⟨k, v⟩ := p
      by_cases hk : k ∈ bad
      · simpa [List.filter, hk] using ih
      · have hkj : k ≠ j := fun he => hk (he ▸ hj)
        simpa [List.filter, hk, alookup, hkj] using ih

@[simp] theorem ainsert_cons_self {κ α : Type} [DecidableEq κ] (k : κ) (v w : α)
    (l : List (κ × α)) : ainsert ((k, v) :: l) k w = (k, w) :: l := by
  simp [ainsert]

@[simp] theorem apply_status_status (job : JobRecord) (st sp : String) (pr : Int) (now : Nat) :
    (apply_status job st sp pr now).status = st := rfl

@[simp] theorem apply_status_step (job : JobRecord) (st sp : String) (pr : Int) (now : Nat) :
    (apply_status job st sp pr now).current_step = sp := rfl

@[simp] theorem apply_status_progress (job : JobRecord) (st sp : String) (pr : Int) (now : Nat) :
    (apply_status job st sp pr now).progress_percentage = pr := rfl

@[simp] theorem apply_status_speaker_count (job : JobRecord) (st sp : String) (pr : Int)
    (now : Nat) : (apply_status job st sp pr now).speaker_count = job.speaker_count := rfl

@[simp] theorem apply_status_output_directory (job : JobRecord) (st sp : String) (pr : Int)
    (now : Nat) : (apply_status job st sp pr now).output_directory = job.output_directory := rfl

@[simp] theorem apply_status_error_message (job : JobRecord) (st sp : String) (pr : Int)
    (now : Nat) : (apply_status job st sp pr now).error_message =
      if st = "failed" ∧ sp = "cancelled" then some "Job cancelled by user"
      else job.error_message := rfl

/-- Evaluation of a published status write on the canonical in-flight state
shape: the snapshot goes to the cache and the trace, `apply_status` is applied
to the job row. -/
theorem push_status_shape (cache : List (String × Snapshot)) (canc : List (String × Bool))
    (threads : List String) (rec : JobRecord) (db_rest : List (String × JobRecord))
    (tracks : List ((String × String) × SpeakerTrackRec))
    (out : List (String × String × List Int)) (now : Nat) (trace : List Snapshot)
    (j st sp : String) (pr : Int) (m : String)
    (hok : check_job_cancelled ⟨cache, canc, threads, (j, rec) :: db_rest, tracks, out, now⟩ j
      = false ∨ st = "failed" ∨ st = "cancelled") :
    push_status ⟨⟨cache, canc, threads, (j, rec) :: db_rest, tracks, out, now⟩, trace⟩
        j st sp pr m =
      ⟨⟨ainsert cache j ⟨st, sp, pr, m⟩, canc, threads,
        (j, apply_status rec st sp pr now) :: db_rest, tracks, out, now⟩,
        trace ++ [⟨st, sp, pr, m⟩]⟩ := by
  rcases hok with hc | hst | hst
  · simp [push_status, update_job_status, hc]
  · subst hst; simp [push_status, update_job_status]
  · subst hst; simp [push_status, update_job_status]

/-- A write with a non-terminal status on a cancelled job is a no-op. -/
theorem push_status_skip (p : PState) (j st sp : String) (pr : Int) (m : String)
    (hc : check_job_cancelled p.sys j = true) (h1 : st ≠ "failed") (h2 : st ≠ "cancelled") :
    push_status p j st sp pr m = p := by
  simp [push_status, update_job_status, hc, h1, h2]

theorem update_job_status_quiet_fields (s : SysState) (job_id status step : String)
    (progress : Int) (message : String) (db_write_fails : Bool) :
    ((update_job_status s job_id status step progress message db_write_fails).1).job_cancellations
        = s.job_cancellations ∧
    ((update_job_status s job_id status step progress message db_write_fails).1).output_files
        = s.output_files ∧
    ((update_job_status s job_id status step progress message db_write_fails).1).job_threads
        = s.job_threads ∧
    ((update_job_status s job_id status step progress message db_write_fails).1).tracks
        = s.tracks ∧
    ((update_job_status s job_id status step progress message db_write_fails).1).now = s.now := by
  unfold update_job_status
  split
  · simp
  · split
    · simp
    · dsimp only
      cases h : alookup s.db job_id <;> simp [h]

@[simp] theorem push_status_cancellations (p : PState) (j st sp : String) (pr : Int)
    (m : String) : (push_status p j st sp pr m).sys.job_cancellations =
      p.sys.job_cancellations := by
  show ((update_job_status p.sys j st sp pr m false).1).job_cancellations
    = p.sys.job_cancellations
  exact (update_job_status_quiet_fields p.sys j st sp pr m false).1

@[simp] theorem push_status_output_files (p : PState) (j st sp : String) (pr : Int)
    (m : String) : (push_status p j st sp pr m).sys.output_files = p.sys.output_files := by
  show ((update_job_status p.sys j st sp pr m false).1).output_files = p.sys.output_files
  exact (update_job_status_quiet_fields p.sys j st sp pr m false).2.1

theorem build_speaker_audio_go (audio : List Int) :
    ∀ (segs : List Segment) (acc : List Int),
      segs.foldl (fun acc seg => acc ++ slice_audio audio seg ++ List.replicate 500 0) acc =
        acc ++ (segs.map (fun seg => slice_audio audio seg ++ List.replicate 500 0)).flatten := by
  intro segs
  induction segs with
  | nil =>
      intro acc
      simp only [List.foldl_nil, List.map_nil, List.flatten_nil, List.append_nil]
  | cons s rest ih =>
      intro acc
      simp only [List.foldl_cons, List.map_cons, List.flatten_cons]
      rw [ih]
      simp only [List.append_assoc]

/-- The per-speaker audio is each span of that speaker followed by 500 ms of
silence, concatenated: the silence is appended after the last span too. -/
theorem build_speaker_audio_eq (audio : List Int) (segs : List Segment) :
    build_speaker_audio audio segs =
      (segs.map (fun seg => slice_audio audio seg ++ List.replicate 500 0)).flatten := by
  unfold build_speaker_audio
  rw [build_speaker_audio_go]
  rfl

theorem alookup_insert_seg (acc : List (String × List Segment)) (k : String) (seg : Segment)
    (k' : String) : alookup (insert_seg acc k seg) k' =
      if k = k' then some ((alookup acc k).getD [] ++ [seg]) else alookup acc k' := by
  induction acc with
  | nil => by_cases hk : k = k' <;> simp [insert_seg, alookup, hk]
  | cons p rest ih =>
      obtain ⟨k0, l0⟩ := p
      by_cases h0 : k0 = k
      · subst h0
        by_cases hk : k0 = k' <;> simp [insert_seg, alookup, hk]
      · by_cases hk : k0 = k'
        · subst hk
          have : ¬ k = k0 := fun he => h0 he.symm
          simp [insert_seg, h0, alookup, this]
        · simp [insert_seg, h0, alookup, hk, ih]

theorem group_fold_getD (segs : List Segment) :
    ∀ (acc : List (String × List Segment)) (k : String),
      (alookup (segs.foldl (fun acc seg => insert_seg acc (seg_key seg) seg) acc) k).getD [] =
        (alookup acc k).getD [] ++ segs.filter (fun s => seg_key s == k) := by
  induction segs with
  | nil => intro acc k; simp
  | cons s rest ih =>
      intro acc k
      by_cases hk : seg_key s = k
      · simp only [List.foldl_cons, List.filter_cons, hk]
        rw [ih]
        simp [alookup_insert_seg, hk]
      · simp only [List.foldl_cons, List.filter_cons]
        rw [ih]
        simp [alookup_insert_seg, hk]

theorem group_fold_none (segs : List Segment) :
    ∀ (acc : List (String × List Segment)) (k : String),
      alookup (segs.foldl (fun acc seg => insert_seg acc (seg_key seg) seg) acc) k = none ↔
        (alookup acc k = none ∧ segs.filter (fun s => seg_key s == k) = []) := by
  induction segs with
  | nil => intro acc k; simp
  | cons s rest ih =>
      intro acc k
      by_cases hk : seg_key s = k
      · simp only [List.foldl_cons, List.filter_cons, hk]
        rw [ih]
        simp [alookup_insert_seg, hk]
      · simp only [List.foldl_cons, List.filter_cons]
        rw [ih]
        simp [alookup_insert_seg, hk]

/-- Membership of a speaker group determines its exact contents: the segments
with that key, in engine-assigned order. -/
theorem group_by_speaker_lookup (segs : List Segment) (k : String)
    (l : List Segment) (h : alookup (group_by_speaker segs) k = some l) :
    l = segs.filter (fun s => seg_key s == k) := by
  have hg := group_fold_getD segs [] k
  unfold group_by_speaker at h
  rw [h] at hg
  simpa using hg

theorem insert_seg_keys (acc : List (String × List Segment)) (k : String) (seg : Segment) :
    (insert_seg acc k seg).map Prod.fst =
      if k ∈ acc.map Prod.fst then acc.map Prod.fst else acc.map Prod.fst ++ [k] := by
  induction acc with
  | nil => simp [insert_seg]
  | cons p rest ih =>
      obtain ⟨k0, l0⟩ := p
      by_cases h0 : k0 = k
      · subst h0; simp [insert_seg]
      · have : ¬ k = k0 := fun he => h0 he.symm
        by_cases hmem : k ∈ rest.map Prod.fst <;>
          simp [insert_seg, h0, ih, hmem, this]

theorem group_fold_keys (segs : List Segment) :
    ∀ acc : List (String × List Segment),
      (segs.foldl (fun acc seg => insert_seg acc (seg_key seg) seg) acc).map Prod.fst =
        (segs.map seg_key).foldl (fun ks k => if k ∈ ks then ks else ks ++ [k])
          (acc.map Prod.fst) := by
  induction segs with
  | nil => intro acc; simp
  | cons s rest ih =>
      intro acc
      simp only [List.foldl_cons, List.map_cons]
      rw [ih, insert_seg_keys]

/-- The speakers of the grouping, in first-appearance (engine-assigned) order. -/
theorem group_by_speaker_keys (segs : List Segment) :
    (group_by_speaker segs).map Prod.fst = first_keys (segs.map seg_key) := by
  unfold group_by_speaker first_keys
  rw [group_fold_keys]
  rfl

theorem first_keys_go_nodup (ks : List String) :
    ∀ acc : List String, acc.Nodup →
      (ks.foldl (fun ks k => if k ∈ ks then ks else ks ++ [k]) acc).Nodup := by
  induction ks with
  | nil => intro acc h; simpa
  | cons k rest ih =>
      intro acc h
      simp only [List.foldl_cons]
      by_cases hmem : k ∈ acc
      · rw [if_pos hmem]; exact ih acc h
      · rw [if_neg hmem]
        refine ih (acc ++ [k]) ?_
        simp [List.nodup_append, h, hmem]

/-- Each speaker key occurs once: one output file per speaker. -/
theorem group_by_speaker_keys_nodup (segs : List Segment) :
    ((group_by_speaker segs).map Prod.fst).Nodup := by
  rw [group_by_speaker_keys]
  exact first_keys_go_nodup _ [] List.nodup_nil

theorem separate_loop_spec (audio : List Int) (j : String) :
    ∀ (groups : List (String × List Segment)) (total idx : Nat) (p : PState)
      (files : List (String × List Int)), check_job_cancelled p.sys j = false →
      (separate_loop audio j groups total idx p files).2 =
        .ok (files ++ groups.map (fun g => (g.1, build_speaker_audio audio g.2))) ∧
      (separate_loop audio j groups total idx p files).1.sys.output_files =
        p.sys.output_files ++ groups.map (fun g => (j, g.1, build_speaker_audio audio g.2)) := by
  intro groups
  induction groups with
  | nil => intro total idx p files _; simp [separate_loop]
  | cons g rest ih =>
      intro total idx p files hc
      obtain ⟨spk, segs⟩ := g
      have hstep : check_job_cancelled
          ({ (push_status p j "processing" "separating" (65 + (Int.ofNat (idx * 20 / total)))
              ("Processing speaker " ++ toString (idx + 1) ++ "/" ++ toString total ++ ": " ++ spk))
            with sys := { (push_status p j "processing" "separating"
                (65 + (Int.ofNat (idx * 20 / total)))
                ("Processing speaker " ++ toString (idx + 1) ++ "/" ++ toString total ++ ": " ++ spk)).sys
              with output_files := (push_status p j "processing" "separating"
                  (65 + (Int.ofNat (idx * 20 / total)))
                  ("Processing speaker " ++ toString (idx + 1) ++ "/" ++ toString total ++ ": " ++ spk)).sys.output_files
                ++ [(j, spk, build_speaker_audio audio segs)] } }).sys j = false := by
        simpa [check_job_cancelled] using hc
      have := ih total (idx + 1) _ (files ++ [(spk, build_speaker_audio audio segs)]) hstep
      simp only [separate_loop, hc, Bool.false_eq_true, if_false]
      refine ⟨?_, ?_⟩
      · rw [this.1]; simp
      · rw [this.2]; simp

theorem mock_grouped : group_by_speaker mock_segments =
    [("SPEAKER_00", [mock_seg0, mock_seg2, mock_seg4]),
     ("SPEAKER_01", [mock_seg1, mock_seg3, mock_seg5])] := rfl

theorem toggle_le_one (c : Prop) [Decidable c] (cur : Nat) (h : cur ≤ 1) :
    (if c then 1 - cur else cur) ≤ 1 := by
  split <;> omega

theorem speaker_name_toggle_ne (cur : Nat) (h : cur ≤ 1) :
    speaker_name (1 - cur) ≠ speaker_name cur := by
  interval_cases cur <;> decide

/-- Two consecutive segments of the assignment loop get different speakers
exactly when the gap between them exceeds 2 seconds. -/
theorem assign_speakers_loop_adjacent (segs : List Segment) :
    ∀ (cur : Nat) (lastEnd : Rat), cur ≤ 1 →
      ∀ (i : Nat) (a b x y : Segment), segs[i]? = some a → segs[i + 1]? = some b →
        (assign_speakers_loop cur lastEnd segs)[i]? = some x →
        (assign_speakers_loop cur lastEnd segs)[i + 1]? = some y →
        (x.speaker ≠ y.speaker ↔ 2 < b.start - a.endTime) := by
  induction segs with
  | nil => intro cur lastEnd _ i a b x y ha; simp at ha
  | cons seg rest ih =>
      intro cur lastEnd hcur i a b x y ha hb hx hy
      cases i with
      | zero =>
          cases rest with
          | nil => simp at hb
          | cons b0 rest' =>
              simp only [assign_speakers_loop, List.getElem?_cons_zero,
                List.getElem?_cons_succ, Option.some.injEq] at ha hb hx hy
              subst ha
              subst hx
              subst hy
              rw [← hb]
              set cur1 := if 2 < seg.start - lastEnd then 1 - cur else cur with hcur1
              have hcur1le : cur1 ≤ 1 := toggle_le_one _ cur hcur
              dsimp only
              by_cases hgap : 2 < b0.start - seg.endTime
              · simp only [if_pos hgap]
                constructor
                · intro _; exact hgap
                · intro _
                  simp only [ne_eq, Option.some.injEq]
                  exact fun he => speaker_name_toggle_ne cur1 hcur1le he.symm
              · simp only [if_neg hgap]
                constructor
                · intro hne; exact absurd rfl hne
                · intro hg; exact absurd hg hgap
      | succ j =>
          simp only [assign_speakers_loop, List.getElem?_cons_succ] at ha hb hx hy
          exact ih _ seg.endTime (toggle_le_one _ cur hcur) j a b x y ha hb hx hy

/-! ## Claims C1 and C10: behaviour of the status write -/

/-- C1 (counterexample): the claim says that when the durable write fails the
cache entry is left unchanged.  In the code the in-memory snapshot is written
before the database is touched and the failure is swallowed, so after a failing
durable write the cache holds the new snapshot, not the old one. -/
theorem update_job_status_cache_changes_on_db_failure :
    alookup (update_job_status c1_state "j1" "processing" "transcribing" 30 "new message" true).1.job_statuses "j1" =
      some ⟨"processing", "transcribing", 30, "new message"⟩ ∧
    alookup c1_state.job_statuses "j1" ≠
      some (⟨"processing", "transcribing", 30, "new message"⟩ : Snapshot) := by
  decide

/-- C1 (amended): `update_job_status` updates the cache entry first and the
durable record second; if the durable write fails, the exception is swallowed
(the call still returns normally, reporting no storage error), the cache keeps
the new snapshot and the durable store is unchanged. -/
theorem update_job_status_db_failure_behaviour (s : SysState)
    (job_id status step : String) (progress : Int) (message : String)
    (h : check_job_cancelled s job_id = false) :
    (update_job_status s job_id status step progress message true).1.job_statuses =
        ainsert s.job_statuses job_id ⟨status, step, progress, message⟩ ∧
    (update_job_status s job_id status step progress message true).1.db = s.db ∧
    (update_job_status s job_id status step progress message true).2 = true := by
  unfold update_job_status
  simp [h]

/-- Witness for the amended C1 theorem at a concrete input. -/
theorem update_job_status_db_failure_behaviour_witness :
    (update_job_status c1_state "j1" "processing" "transcribing" 30 "new message" true).1.job_statuses =
        ainsert c1_state.job_statuses "j1" ⟨"processing", "transcribing", 30, "new message"⟩ ∧
    (update_job_status c1_state "j1" "processing" "transcribing" 30 "new message" true).1.db = c1_state.db ∧
    (update_job_status c1_state "j1" "processing" "transcribing" 30 "new message" true).2 = true :=
  update_job_status_db_failure_behaviour c1_state "j1" "processing" "transcribing" 30
    "new message" (by decide)

/-- C10 (confirmed): once the cancellation flag of a job is set, any call to
`update_job_status` whose status is neither `failed` nor `cancelled` is
discarded before touching either the cache or the durable record: the state is
returned unchanged and nothing is published. -/
theorem update_job_status_discarded_when_cancelled (s : SysState)
    (job_id status step : String) (progress : Int) (message : String)
    (db_write_fails : Bool)
    (hflag : check_job_cancelled s job_id = true)
    (h1 : status ≠ "failed") (h2 : status ≠ "cancelled") :
    update_job_status s job_id status step progress message db_write_fails = (s, false) := by
  unfold update_job_status
  simp [hflag, h1, h2]

/-- Witness for the C10 theorem at a concrete input: a `processing` write on a
cancelled job leaves the whole state unchanged. -/
theorem update_job_status_discarded_when_cancelled_witness :
    update_job_status c10_state "j1" "processing" "transcribing" 30 "msg" false =
      (c10_state, false) :=
  update_job_status_discarded_when_cancelled c10_state "j1" "processing" "transcribing" 30
    "msg" false (by decide) (by decide) (by decide)

/-! ## Claim C3: terminal status reads bypass the cache -/

/-- C3 (confirmed): a status read of a job whose durable status is `completed`
or `failed` returns the snapshot built from the durable row — whatever the
cache holds and whether or not the opportunistic reaper ran first — while an
in-flight job with a cache entry is answered from the cache. -/
theorem get_job_status_terminal_bypasses_cache (s : SysState) (j : String)
    (rec : JobRecord) (h : alookup s.db j = some rec) :
    ((rec.status = "completed" ∨ rec.status = "failed") →
      ∀ run_cleaner, (get_job_status s j run_cleaner).1 = db_snapshot rec) ∧
    (rec.status ≠ "completed" → rec.status ≠ "failed" →
      ∀ m, alookup s.job_statuses j = some m → (get_job_status s j false).1 = m) := by
  constructor
  · intro ht run_cleaner
    have hnp : rec.status ≠ "processing" := by
      rcases ht with h1 | h1 <;> simp [h1]
    have hdb : alookup (clean_stale_cache_entries s).db j = some rec := by
      unfold clean_stale_cache_entries
      exact stale_scan_db_preserves_nonprocessing s.now s.job_statuses s.db j rec h hnp
    rcases ht with h1 | h1 <;> cases run_cleaner <;>
      simp [get_job_status, h, hdb, h1]
  · intro h1 h2 m hm
    simp [get_job_status, h, h1, h2, hm]

/-- Witness for the C3 theorem: the completed job is answered from the durable
row (with and without the reaper pass) despite its stale cache entry, and the
in-flight job is answered from the cache. -/
theorem get_job_status_terminal_bypasses_cache_witness :
    (get_job_status c3_state "done" false).1 = db_snapshot c3_done_rec ∧
    (get_job_status c3_state "done" true).1 = db_snapshot c3_done_rec ∧
    (get_job_status c3_state "live" false).1 =
      ⟨"processing", "transcribing", 45, "fresh cache entry"⟩ :=
  ⟨(get_job_status_terminal_bypasses_cache c3_state "done" c3_done_rec (by decide)).1
      (by decide) false,
   (get_job_status_terminal_bypasses_cache c3_state "done" c3_done_rec (by decide)).1
      (by decide) true,
   (get_job_status_terminal_bypasses_cache c3_state "live"
      ⟨"processing", "converting", 20, none, some 10, none, none, none⟩ (by decide)).2
      (by decide) (by decide) _ (by decide)⟩

/-! ## Claim C8: the stale-job reaper -/

/-- C8 (amended): the reaper scans only jobs that have a cache entry.  For a
cached job whose durable status is `processing` with `started_at` more than 30
minutes in the past, the next scan force-writes `failed` (with step `failed`,
not `error`), progress 0 and the timeout message to the durable row and evicts
the job from the cache; a stale job without a cache entry is not touched, and
the thread registry is never modified. -/
theorem clean_stale_reaper_behaviour (s : SysState) (j : String) :
    ((s.job_statuses.map Prod.fst).Nodup → j ∈ s.job_statuses.map Prod.fst →
      ∀ rec, alookup s.db j = some rec → is_stale rec s.now = true →
        alookup (clean_stale_cache_entries s).db j = some (stale_failed rec s.now) ∧
        alookup (clean_stale_cache_entries s).job_statuses j = none) ∧
    (j ∉ s.job_statuses.map Prod.fst →
      alookup (clean_stale_cache_entries s).db j = alookup s.db j) ∧
    (clean_stale_cache_entries s).job_threads = s.job_threads := by
  unfold clean_stale_cache_entries
  refine ⟨?_, ?_, rfl⟩
  · intro hnd hmem rec hdb hst
    have h := stale_scan_hits s.now s.job_statuses s.db j rec hnd hmem hdb hst
    exact ⟨h.1, alookup_filter_not_mem _ _ _ h.2⟩
  · intro hnm
    exact stale_scan_db_not_mem s.now s.job_statuses s.db j hnm

/-- C8 (counterexample): the claim says the reaper force-fails every stale
`processing` job, not only those with a cache entry.  Here `stuck` satisfies
the reaper's own staleness test, yet after a full scan its durable status is
still `processing`, because the scan iterates over cache entries only. -/
theorem clean_stale_misses_uncached_job :
    is_stale c8_stuck_rec c8_state.now = true ∧
    alookup (clean_stale_cache_entries c8_state).db "stuck" = some c8_stuck_rec ∧
    c8_stuck_rec.status = "processing" ∧ ("processing" : String) ≠ "failed" := by
  decide

/-! ## Claim C9: updateSpeakerLabel -/

/-- C9 (amended): the label update validates charset and length before
writing — a label longer than 100 characters is rejected with a validation
error and nothing is written — but it performs no job-status check at all: on
a job of any status with an existing `(job, speaker)` track and a valid label
the write succeeds; and a speakerId with no track for the job makes the
service return `False`, which the view reports as a generic server error (not
NotFound), leaving the state unchanged. -/
theorem update_speaker_label_behaviour (s : SysState) (j sid lab : String) :
    (∀ rec tr, alookup s.db j = some rec → alookup s.tracks (j, sid) = some tr →
      speaker_label_form_valid sid (strip lab) = true →
      (update_speaker_name s j sid lab).1 = UpdateResponse.ok ∧
      alookup (update_speaker_name s j sid lab).2.tracks (j, sid) =
        some { tr with speaker_label := strip lab }) ∧
    (100 < (strip lab).length →
      update_speaker_name s j sid lab = (UpdateResponse.validationError, s)) ∧
    (speaker_label_form_valid sid (strip lab) = true →
      alookup s.tracks (j, sid) = none →
      update_speaker_name s j sid lab = (UpdateResponse.serverError, s)) := by
  refine ⟨?_, ?_, ?_⟩
  · intro rec tr hdb htr hval
    simp [update_speaker_name, hval, update_speaker_label, hdb, htr, alookup_ainsert]
  · intro hlen
    have hnle : ¬ ((strip lab).length ≤ 100) := by omega
    have hv : speaker_label_form_valid sid (strip lab) = false := by
      simp [speaker_label_form_valid, hnle]
    simp [update_speaker_name, hv]
  · intro hval htr
    cases hdb : alookup s.db j <;>
      simp [update_speaker_name, hval, update_speaker_label, hdb, htr]

set_option maxRecDepth 4000 in
/-- Witness for the amended C9 theorem: the write succeeds on a job that is
not Completed; a 101-character label yields the validation error; an unseen
speakerId yields the generic server error. -/
theorem update_speaker_label_behaviour_witness :
    ((update_speaker_name c9_processing_state "j9" "SPEAKER_00" "Alice").1 =
        UpdateResponse.ok ∧
      alookup (update_speaker_name c9_processing_state "j9" "SPEAKER_00" "Alice").2.tracks
        ("j9", "SPEAKER_00") = some { c9_track with speaker_label := strip "Alice" }) ∧
    update_speaker_name c9_processing_state "j9" "SPEAKER_00" c9_long_label =
      (UpdateResponse.validationError, c9_processing_state) ∧
    update_speaker_name c9_processing_state "j9" "SPEAKER_99" "Alice" =
      (UpdateResponse.serverError, c9_processing_state) :=
  ⟨(update_speaker_label_behaviour c9_processing_state "j9" "SPEAKER_00" "Alice").1
      ⟨"processing", "separating", 70, none, some 0, none, none, none⟩ c9_track
      (by decide) (by decide) (by decide),
   (update_speaker_label_behaviour c9_processing_state "j9" "SPEAKER_00" c9_long_label).2.1
      (by decide),
   (update_speaker_label_behaviour c9_processing_state "j9" "SPEAKER_99" "Alice").2.2
      (by decide) (by decide)⟩

/-- C9 (counterexample): the claim says a previously unseen speakerId yields
`NotFound`.  On a Completed job, the call with an unseen speakerId returns the
generic server-error response, not NotFound. -/
theorem unseen_speaker_yields_generic_failure :
    (update_speaker_name c9_completed_state "j9" "SPEAKER_99" "Alice").1 =
      UpdateResponse.serverError ∧
    UpdateResponse.serverError ≠ UpdateResponse.notFound := by
  decide

/-! ## Claim C7: the Separating stage -/

/-- C7 (amended): the Separating stage partitions the segments by speaker
identity — keys in first-appearance order, each group exactly that speaker's
segments in engine order, one output file per speaker (keys are distinct) —
and each speaker's audio is the concatenation of its spans (sliced from the
normalized intermediate by millisecond offsets) with 500 ms of silence
appended after every span, the last included. -/
theorem separate_speakers_output (audio : List Int) (segs : List Segment) (j : String)
    (p : PState) (hc : check_job_cancelled p.sys j = false) :
    (separate_speakers audio segs j p).2 =
      .ok ((group_by_speaker segs).map (fun g => (g.1, build_speaker_audio audio g.2))) ∧
    (separate_speakers audio segs j p).1.sys.output_files =
      p.sys.output_files ++
        (group_by_speaker segs).map (fun g => (j, g.1, build_speaker_audio audio g.2)) ∧
    (group_by_speaker segs).map Prod.fst = first_keys (segs.map seg_key) ∧
    ((group_by_speaker segs).map Prod.fst).Nodup ∧
    (∀ k l, alookup (group_by_speaker segs) k = some l →
      l = segs.filter (fun s => seg_key s == k)) ∧
    (∀ a ss, build_speaker_audio a ss =
      (ss.map (fun seg => slice_audio a seg ++ List.replicate 500 0)).flatten) := by
  have hc1 : check_job_cancelled (push_status p j "processing" "separating" 60
      "Separating speakers into individual tracks...").sys j = false := by
    simpa only [check_job_cancelled, push_status_cancellations] using hc
  have h1 := separate_loop_spec audio j (group_by_speaker segs)
    (group_by_speaker segs).length 0 _ [] hc1
  refine ⟨?_, ?_, group_by_speaker_keys segs, group_by_speaker_keys_nodup segs,
    fun k l h => group_by_speaker_lookup segs k l h,
    fun a ss => build_speaker_audio_eq a ss⟩
  · simpa [separate_speakers, hc] using h1.1
  · simpa [separate_speakers, hc] using h1.2

set_option maxRecDepth 4000 in
/-- Witness for the amended C7 theorem at a concrete input. -/
theorem separate_speakers_output_witness :
    (separate_speakers c7w_audio c7w_segs "jw" c7w_state).2 =
      .ok ((group_by_speaker c7w_segs).map
        (fun g => (g.1, build_speaker_audio c7w_audio g.2))) ∧
    (separate_speakers c7w_audio c7w_segs "jw" c7w_state).1.sys.output_files =
      c7w_state.sys.output_files ++
        (group_by_speaker c7w_segs).map
          (fun g => ("jw", g.1, build_speaker_audio c7w_audio g.2)) :=
  ⟨(separate_speakers_output c7w_audio c7w_segs "jw" c7w_state (by decide)).1,
   (separate_speakers_output c7w_audio c7w_segs "jw" c7w_state (by decide)).2.1⟩

set_option maxRecDepth 8000 in
/-- C7 (counterexample): the claim says the 500 ms gap is inserted between
consecutive spans and only between spans — so a speaker with a single span
would get no silence at all.  The code appends the gap after every span: for a
single 3 ms span the produced audio is the span followed by 500 ms of silence,
different from the between-spans-only reading. -/
theorem separating_gap_trails_final_span :
    build_speaker_audio c7_audio [c7_seg] = [5, 6, 7] ++ List.replicate 500 0 ∧
    spec_speaker_audio c7_audio [c7_seg] = [5, 6, 7] ∧
    build_speaker_audio c7_audio [c7_seg] ≠ spec_speaker_audio c7_audio [c7_seg] := by
  refine ⟨by with_unfolding_all decide, by with_unfolding_all decide,
    by with_unfolding_all decide⟩

/-! ## Claim C2: cancellation before a stage -/

/-- C2 (amended): when a job is cancelled before the pipeline observes it, the
stage raises, the executor catches it and force-writes status `failed` with
step `error` (not `cancelled`), progress 0 and message
`Processing failed: Job cancelled by user`; the durable `error_message` is
`Job cancelled by user` (written by the cancel call itself and preserved).
All remaining stages are skipped — the only snapshot the run publishes is that
failure write — no output files are created, and the executor returns without
raising (it is a total function into `PState`). -/
theorem pipeline_cancelled_before_stage (env : PipeEnv) (j : String) (rec : JobRecord)
    (cache : List (String × Snapshot)) (threads : List String)
    (db_rest : List (String × JobRecord))
    (tracks0 : List ((String × String) × SpeakerTrackRec))
    (out0 : List (String × String × List Int)) (now : Nat) (trace0 : List Snapshot) :
    ∃ recf : JobRecord,
      alookup (run_separation_pipeline env j
          ⟨(cancel_job ⟨cache, [], threads, (j, rec) :: db_rest, tracks0, out0, now⟩ j).2,
            trace0⟩).sys.db j = some recf ∧
      recf.status = "failed" ∧ recf.current_step = "error" ∧
      recf.progress_percentage = 0 ∧ recf.error_message = some "Job cancelled by user" ∧
      (run_separation_pipeline env j
          ⟨(cancel_job ⟨cache, [], threads, (j, rec) :: db_rest, tracks0, out0, now⟩ j).2,
            trace0⟩).sys.output_files = out0 ∧
      (run_separation_pipeline env j
          ⟨(cancel_job ⟨cache, [], threads, (j, rec) :: db_rest, tracks0, out0, now⟩ j).2,
            trace0⟩).trace =
        trace0 ++ [⟨"failed", "error", 0, "Processing failed: Job cancelled by user"⟩] := by
  simp [cancel_job, update_job_status, check_job_cancelled, run_separation_pipeline,
    convert_to_wav, pipeline_fail, push_status_skip, push_status, apply_status]

/-- C2 (counterexample): the claim says a job cancelled before the Converting
stage ends with step `Cancelled` and message `cancelled by user`.  Running the
executor after a cancel call, the job ends with durable step `error`, and the
snapshot the executor publishes carries the message
`Processing failed: Job cancelled by user`. -/
theorem cancelled_job_ends_step_error :
    (alookup (run_separation_pipeline c2_env "j2"
        ⟨(cancel_job c2_state "j2").2, []⟩).sys.db "j2").map JobRecord.current_step =
      some "error" ∧
    ("error" : String) ≠ "cancelled" ∧
    (run_separation_pipeline c2_env "j2" ⟨(cancel_job c2_state "j2").2, []⟩).trace =
      [⟨"failed", "error", 0, "Processing failed: Job cancelled by user"⟩] := by
  decide

/-! ## Claim C4: progress monotonicity while processing -/

/-- C4 (code bug): the progress values published while status is `processing`
during this single run are 5, 10, 15, 20, 25, 30, 35, 40, then 35 again — the
sequence is not non-decreasing, contradicting the documented invariant.  (Each
value is still an integer in 0..100.) -/
theorem pipeline_progress_regresses_on_engine_failure :
    ((run_separation_pipeline c4_env "j4" ⟨c4_state, []⟩).trace.filter
        (fun t => t.status == "processing")).map (fun t => t.progress) =
      [5, 10, 15, 20, 25, 30, 35, 40, 35, 40, 45, 50, 55, 60, 60, 65, 75, 90, 92, 95] ∧
    ¬ List.Chain' (· ≤ ·)
        ([5, 10, 15, 20, 25, 30, 35, 40, 35, 40, 45, 50, 55, 60, 60, 65, 75, 90, 92, 95] :
          List Int) ∧
    (∀ t ∈ (run_separation_pipeline c4_env "j4" ⟨c4_state, []⟩).trace,
      0 ≤ t.progress ∧ t.progress ≤ 100) := by
  refine ⟨by with_unfolding_all decide, by norm_num [List.chain'_cons],
    by with_unfolding_all decide⟩

/-! ## Claim C6: the deterministic mock fallback completes the pipeline -/

/-- C6 (confirmed): when the transcription engine is unavailable (import
fails) or fails unrecoverably (`transcribe` raises after the 40 % checkpoint),
the transcription stage returns the fixed mock transcript — 6 segments
alternating over exactly the two identities `SPEAKER_00`/`SPEAKER_01` — and
the pipeline completes end-to-end: the job row ends `completed`, progress 100,
`speaker_count = 2`. -/
theorem pipeline_completes_via_mock_fallback (audio : List Int) (j : String)
    (rec : JobRecord) (cache : List (String × Snapshot)) (threads : List String)
    (db_rest : List (String × JobRecord))
    (tracks0 : List ((String × String) × SpeakerTrackRec))
    (out0 : List (String × String × List Int)) (now : Nat) (trace0 : List Snapshot) :
    (∀ p : PState, (run_whisperx_transcription (env_unavailable audio) j p).2 =
        mock_segments) ∧
    (∃ recf : JobRecord,
      alookup (run_separation_pipeline (env_unavailable audio) j
          ⟨⟨cache, [], threads, (j, rec) :: db_rest, tracks0, out0, now⟩, trace0⟩).sys.db j
        = some recf ∧
      recf.status = "completed" ∧ recf.progress_percentage = 100 ∧
      recf.speaker_count = some 2) ∧
    (∃ recf : JobRecord,
      alookup (run_separation_pipeline (env_engine_crash audio) j
          ⟨⟨cache, [], threads, (j, rec) :: db_rest, tracks0, out0, now⟩, trace0⟩).sys.db j
        = some recf ∧
      recf.status = "completed" ∧ recf.progress_percentage = 100 ∧
      recf.speaker_count = some 2) ∧
    mock_segments.length = 6 ∧
    mock_segments.map seg_key =
      ["SPEAKER_00", "SPEAKER_01", "SPEAKER_00", "SPEAKER_01", "SPEAKER_00", "SPEAKER_01"] := by
  refine ⟨?_, ?_, ?_, rfl, rfl⟩
  · intro p
    unfold run_whisperx_transcription run_whisperx_real
    by_cases hc : check_job_cancelled p.sys j <;>
      simp [hc, env_unavailable, run_mock_whisperx]
  · simp [env_unavailable, run_separation_pipeline, convert_to_wav,
      run_whisperx_transcription, run_whisperx_real, run_mock_whisperx, separate_speakers,
      separate_loop, finalize_processing, finalize_loop, pipeline_fail,
      push_status_shape, mock_grouped, check_job_cancelled]
  · simp [env_engine_crash, run_separation_pipeline, convert_to_wav,
      run_whisperx_transcription, run_whisperx_real, run_mock_whisperx, separate_speakers,
      separate_loop, finalize_processing, finalize_loop, pipeline_fail,
      push_status_shape, mock_grouped, check_job_cancelled]

/-! ## Claim C5: the diarization-failure fallback heuristic -/

/-- C5 (confirmed): in the diarization-failure fallback, two consecutive
segments are assigned different speaker identities exactly when the gap
between the later start and the earlier end exceeds 2.0 seconds, and a
single-segment transcript is assigned the single identity `SPEAKER_00`. -/
theorem fallback_heuristic_gap_toggle (segments : List Segment) :
    (1 < segments.length →
      ∀ (i : Nat) (a b x y : Segment), segments[i]? = some a → segments[i + 1]? = some b →
        (fallback_assign_speakers segments)[i]? = some x →
        (fallback_assign_speakers segments)[i + 1]? = some y →
        (x.speaker ≠ y.speaker ↔ 2 < b.start - a.endTime)) ∧
    (∀ seg, segments = [seg] →
      fallback_assign_speakers segments = [{ seg with speaker := some "SPEAKER_00" }]) := by
  constructor
  · intro hlen i a b x y ha hb hx hy
    simp only [fallback_assign_speakers, if_pos hlen] at hx hy
    exact assign_speakers_loop_adjacent segments 0 0 (by omega) i a b x y ha hb hx hy
  · intro seg hseg
    subst hseg
    simp [fallback_assign_speakers]

/-- Witness for the C5 theorem: a 3-second gap separates the two speaker
identities, a 1-second gap keeps the same identity. -/
theorem fallback_heuristic_gap_toggle_witness :
    (∃ x y : Segment, (fallback_assign_speakers c5_far)[0]? = some x ∧
      (fallback_assign_speakers c5_far)[1]? = some y ∧ x.speaker ≠ y.speaker) ∧
    (∃ x y : Segment, (fallback_assign_speakers c5_near)[0]? = some x ∧
      (fallback_assign_speakers c5_near)[1]? = some y ∧ x.speaker = y.speaker) := by
  constructor
  · refine ⟨⟨0, 1, "hello", some "SPEAKER_00"⟩, ⟨4, 5, "there", some "SPEAKER_01"⟩,
      by with_unfolding_all decide, by with_unfolding_all decide, ?_⟩
    exact ((fallback_heuristic_gap_toggle c5_far).1 (by decide) 0
      ⟨0, 1, "hello", none⟩ ⟨4, 5, "there", none⟩
      ⟨0, 1, "hello", some "SPEAKER_00"⟩ ⟨4, 5, "there", some "SPEAKER_01"⟩
      (by with_unfolding_all decide) (by with_unfolding_all decide)
      (by with_unfolding_all decide) (by with_unfolding_all decide)).mpr
      (by with_unfolding_all decide)
  · refine ⟨⟨0, 1, "hello", some "SPEAKER_00"⟩, ⟨2, 3, "there", some "SPEAKER_00"⟩,
      by with_unfolding_all decide, by with_unfolding_all decide, ?_⟩
    have h := ((fallback_heuristic_gap_toggle c5_near).1 (by decide) 0
      ⟨0, 1, "hello", none⟩ ⟨2, 3, "there", none⟩
      ⟨0, 1, "hello", some "SPEAKER_00"⟩ ⟨2, 3, "there", some "SPEAKER_00"⟩
      (by with_unfolding_all decide) (by with_unfolding_all decide)
      (by with_unfolding_all decide) (by with_unfolding_all decide))
    have hno : ¬ ((⟨0, 1, "hello", some "SPEAKER_00"⟩ : Segment).speaker ≠
        (⟨2, 3, "there", some "SPEAKER_00"⟩ : Segment).speaker) :=
      fun hne => (by with_unfolding_all decide : ¬ (2 < (2 : Rat) - 1)) (h.mp hne)
    exact not_not.mp hno

/-- Witness for the amended C8 theorem at a concrete input. -/
theorem clean_stale_reaper_behaviour_witness :
    (alookup (clean_stale_cache_entries c8_witness_state).db "stuck" =
        some (stale_failed c8_stuck_rec 100000) ∧
      alookup (clean_stale_cache_entries c8_witness_state).job_statuses "stuck" = none) ∧
    (clean_stale_cache_entries c8_witness_state).job_threads = c8_witness_state.job_threads :=
  ⟨(clean_stale_reaper_behaviour c8_witness_state "stuck").1 (by decide) (by decide)
      c8_stuck_rec (by decide) (by decide),
   (clean_stale_reaper_behaviour c8_witness_state "stuck").2.2⟩

end AudioSep
